import Mathlib

/-!
Shallow embedding of `src/vesal.ts` (the Vesal SMS API client) and proofs of
the specification claims about it.

Modelling conventions:
* TypeScript `string | string[]` arguments become the sum type `StrOrArr`;
  JavaScript truthiness of such a value (`""` is falsy, every array is truthy)
  is `StrOrArr.truthy`.
* The HTTP transport (`fetch` + `response.json()`) is modelled by the
  `TransportOutcome` type: a connection failure, a non-JSON body, or a parsed
  JSON body carrying an optional top-level `status` field and a payload.
* A thrown `VesalError` becomes the `.error` case of `Except VesalError`.
* JS numbers that hold integer codes become `Int`; object spread plus an added
  field becomes a structure extension.
* The class never assigns to `this.*` outside the constructor; the state-passing
  wrappers (`SendSt` etc.) make that explicit by returning the client value
  after the call.
-/

namespace VesalTs

/-- The `vesalErrors` catalog from `src/vesal.ts`: API-level error code to
Persian text, transcribed entry by entry. -/
def vesalErrors : List (Int × String) := [
  (1, "شماره گیرنده نادرست است"),
  (2, "شماره فرستنده نادرست است"),
  (3, "پارامتر encoding نامعتبر است. (بررسی صحت و هم‌خوانی متن پیامک با encoding انتخابی)"),
  (4, "پارامتر mclass نامعتبر است"),
  (6, "پارامتر UDH نامعتبر است"),
  (13, "محتویات پیامک (ترکیب UDH و متن) خالی است. (بررسی دوباره‌ی متن پیامک و پارامتر UDH)"),
  (14, "مانده اعتبار ریالی مورد نیاز برای ارسال پیامک کافی نیست"),
  (15, "سرور در هنگام ارسال پیام مشغول برطرف نمودن ایراد داخلی بوده است. (ارسال مجدد درخواست)"),
  (16, "حساب غیرفعال است. (تماس با واحد فروش سیستم‌های ارتباطی)"),
  (17, "حساب منقضی شده است. (تماس با واحد فروش سیستم‌های ارتباطی)"),
  (18, "نام کاربری و یا کلمه عبور نامعتبر است. (بررسی مجدد نام کاربری و کلمه عبور)"),
  (19, "درخواست معتبر نیست. (ترکیب نام کاربری، رمز عبور و دامنه اشتباه است. تماس با واحد فروش برای دریافت کلمه عبور جدید)"),
  (20, "شماره فرستنده به حساب تعلق ندارد"),
  (22, "این سرویس برای حساب فعال نشده است"),
  (23, "در حال حاضر امکان پردازش درخواست جدید وجود ندارد، لطفا دوباره سعی کنید. (ارسال مجدد درخواست)"),
  (24, "شناسه پیامک معتبر نیست. (ممکن است شناسه پیامک اشتباه و یا متعلق به پیامکی باشد که بیش از یک روز از ارسال آن گذشته)"),
  (25, "نام متد درخواستی معتبر نیست. (بررسی نگارش نام متد با توجه به بخش متدها در این راهنما)"),
  (27, "شماره گیرنده در لیست سیاه اپراتور قرار دارد. (ارسال پیامک‌های تبلیغاتی برای این شماره امکان‌پذیر نیست)"),
  (28, "شماره گیرنده، بر اساس پیش‌شماره در حال حاضر در مگفا مسدود است"),
  (29, "آدرس IP مبدا، اجازه دسترسی به این سرویس را ندارد"),
  (30, "تعداد بخش‌های پیامک بیش از حد مجاز استاندارد (۲۶۵ عدد) است"),
  (31, "داده‌های موردنیاز برای ارسال کافی نیستند. (اصلاح HTTP Request)"),
  (101, "طول آرایه پارامتر messageBodies با طول آرایه گیرندگان تطابق ندارد"),
  (102, "طول آرایه پارامتر messageClass با طول آرایه گیرندگان تطابق ندارد"),
  (103, "طول آرایه پارامتر senderNumbers با طول آرایه گیرندگان تطابق ندارد"),
  (104, "طول آرایه پارامتر udhs با طول آرایه گیرندگان تطابق ندارد"),
  (105, "طول آرایه پارامتر priorities با طول آرایه گیرندگان تطابق ندارد"),
  (106, "آرایه‌ی گیرندگان خالی است"),
  (107, "طول آرایه پارامتر گیرندگان بیشتر از طول مجاز است"),
  (108, "آرایه‌ی فرستندگان خالی است"),
  (109, "طول آرایه پارامتر encoding با طول آرایه گیرندگان تطابق ندارد"),
  (110, "طول آرایه پارامتر checkingMessageIds با طول آرایه گیرندگان تطابق ندارد")]

/-- The `messageStatuses` catalog from `src/vesal.ts`: delivery-state code to
Persian text. -/
def messageStatuses : List (Int × String) := [
  (-1, "شناسه موجود نیست (شناسه نادرست یا گذشت بیش از ۲۴ ساعت از ارسال پیامک)"),
  (0, "وضعیتی دریافت نشده"),
  (1, "رسیده به گوشی"),
  (2, "نرسیده به گوشی"),
  (8, "رسیده به مخابرات"),
  (16, "نرسیده به مخابرات")]

/-- `Object.keys(vesalErrors).includes("" + status)` from the source. -/
def inVesalErrors (status : Int) : Bool :=
  vesalErrors.any fun p => p.1 == status

/-- `GetStatusText` from `src/vesal.ts`: `"success"` for `0`, the catalog text
for a known error code, `""` otherwise. -/
def GetStatusText (status : Int) : String :=
  if status = 0 then "success"
  else
    match vesalErrors.find? (fun p => p.1 == status) with
    | some p => p.2
    | none => ""

/-- The fallback branch of the `VesalError` constructor:
`messageParam || "Unknown Vesal error"` (an absent or empty message falls back). -/
def fallbackMessage : Option String → String
  | some m => if m = "" then "Unknown Vesal error" else m
  | none => "Unknown Vesal error"

/-- The `VesalError` class: an optional known status code plus a message. -/
structure VesalError where
  status : Option Int
  message : String
deriving Repr, DecidableEq

/-- The `VesalError` constructor from `src/vesal.ts`: when `statusParam` is
truthy (nonzero, present) and is a key of `vesalErrors`, the message is the
catalog text and the code is kept; otherwise the code is dropped and the
message falls back to `messageParam || "Unknown Vesal error"`. -/
def VesalError.make (statusParam : Option Int) (messageParam : Option String) : VesalError :=
  match statusParam with
  | some s =>
      if s != 0 && inVesalErrors s then
        { status := some s, message := GetStatusText s }
      else
        { status := none, message := fallbackMessage messageParam }
  | none => { status := none, message := fallbackMessage messageParam }

/-- Outcome of the HTTP transport as seen by `Api`: `fetch` threw, the body was
not JSON, or a parsed JSON body with an optional top-level `status` field and
the rest of the body as payload. -/
inductive TransportOutcome (α : Type) where
  | connectFail : TransportOutcome α
  | invalidJson : TransportOutcome α
  | json (status : Option Int) (payload : α) : TransportOutcome α

/-- The private `Api` method from `src/vesal.ts`, applied to the transport
outcome of its single network call. A connection failure, a non-JSON body, or
a body whose `status` field is `undefined` each throw a `VesalError` with a
fixed English message; a body with `status === 0` is returned as-is; a nonzero
status that is a key of `vesalErrors` throws `VesalError(status)`; any other
body is returned as-is. -/
def Api {α : Type} : TransportOutcome α → Except VesalError (Int × α)
  | .connectFail =>
      .error (VesalError.make none (some "Server connection failed"))
  | .invalidJson =>
      .error (VesalError.make none (some "The server didn't respond correctly"))
  | .json none _ =>
      .error (VesalError.make none (some "The server didn't respond correctly"))
  | .json (some s) p =>
      if s = 0 then .ok (s, p)
      else if inVesalErrors s then .error (VesalError.make (some s) none)
      else .ok (s, p)

/-- UTF-8 encoding of one character, as `Buffer.from(string)` produces. -/
def utf8Bytes (c : Char) : List Nat :=
  let n := c.toNat
  if n < 128 then [n]
  else if n < 2048 then [192 + n / 64, 128 + n % 64]
  else if n < 65536 then [224 + n / 4096, 128 + n / 64 % 64, 128 + n % 64]
  else [240 + n / 262144, 128 + n / 4096 % 64, 128 + n / 64 % 64, 128 + n % 64]

/-- The UTF-8 byte sequence of a string. -/
def stringBytes (s : String) : List Nat :=
  (s.data.map utf8Bytes).flatten

/-- The standard base64 alphabet. -/
def base64Table : List Char :=
  "ABCDEFGHIJKLMNOPQRSTUVWXYZabcdefghijklmnopqrstuvwxyz0123456789+/".toList

/-- One base64 digit. -/
def base64Digit (n : Nat) : Char :=
  base64Table.getD n 'A'

/-- Base64 encoding of a byte list, as `Buffer.prototype.toString("base64")`
produces (with `=` padding). -/
def base64EncodeBytes : List Nat → String
  | [] => ""
  | [b1] =>
      String.mk [base64Digit (b1 / 4), base64Digit (b1 % 4 * 16)] ++ "=="
  | [b1, b2] =>
      String.mk [base64Digit (b1 / 4), base64Digit (b1 % 4 * 16 + b2 / 16),
        base64Digit (b2 % 16 * 4)] ++ "="
  | b1 :: b2 :: b3 :: rest =>
      String.mk [base64Digit (b1 / 4), base64Digit (b1 % 4 * 16 + b2 / 16),
        base64Digit (b2 % 16 * 4 + b3 / 64), base64Digit (b3 % 64)]
        ++ base64EncodeBytes rest

/-- The fields of the `Vesal` class (`apiUrl` is a class constant, below). -/
structure Vesal where
  username : String
  domain : String
  password : String
  «from» : String
  authHeader : String
deriving Repr, DecidableEq

/-- The readonly `apiUrl` field. -/
def Vesal.apiUrl : String := "https://sms.vesal.com/api/http/sms/v2"

/-- `username || ""` from the constructor: the identity on strings, since an
empty string falls back to the empty string. -/
def jsOrEmpty (s : String) : String :=
  if s = "" then "" else s

/-- The `Vesal` constructor: stores the credential fields and precomputes the
Basic auth header from `username/domain:password`. -/
def Vesal.new (username password domain sender : String) : Vesal :=
  let username := jsOrEmpty username
  { username := username, domain := domain, password := password, «from» := sender,
    authHeader :=
      "Basic " ++ base64EncodeBytes (stringBytes (username ++ "/" ++ domain ++ ":" ++ password)) }

/-- A TypeScript `string | string[]` argument. -/
inductive StrOrArr where
  | str (s : String) : StrOrArr
  | arr (l : List String) : StrOrArr
deriving Repr, DecidableEq

/-- JavaScript truthiness of a `string | string[]` value: the empty string is
falsy, every array (even `[]`) is truthy. -/
def StrOrArr.truthy : StrOrArr → Bool
  | .str s => s != ""
  | .arr _ => true

/-- The scalar-to-one-element-array normalization `if (typeof x === "string") x = [x]`. -/
def StrOrArr.toArr : StrOrArr → List String
  | .str s => [s]
  | .arr l => l

/-- A TypeScript `Encoding | Encoding[]` argument (encoding codes as integers:
Auto = 0, Persian = 2, EightBit = 5, Binary = 6). -/
inductive EncodingArg where
  | scalar (e : Int) : EncodingArg
  | arr (l : List Int) : EncodingArg
deriving Repr, DecidableEq

/-- `if (encodings && !Array.isArray(encodings)) encodings = Array(n).fill(encodings)`.
A truthy scalar (nonzero code) is expanded to the recipient count; the falsy
scalar `0` (Auto) and arrays are left unchanged. -/
def normalizeEncodings (n : Nat) : Option EncodingArg → Option EncodingArg
  | some (.scalar e) =>
      if e != 0 then some (.arr (List.replicate n e)) else some (.scalar e)
  | other => other

/-- The JSON body `sendData` handed to the transport by `Send`. -/
structure SendData where
  recipients : List String
  messages : List String
  senders : List String
  encodings : Option EncodingArg
  uids : Option (List Nat)
  udhs : Option (List String)
deriving Repr, DecidableEq

/-- The validation and request-shaping phase of `Send` (everything before the
`Api` call): the truthiness check on `recipients`/`messages`, scalar
normalization, the length check on `messages`, and the construction of
`sendData` with `senders = Array(recipients.length).fill(this.from)`. -/
def shapeSend (v : Vesal) (recipients messages : StrOrArr)
    (encodings : Option EncodingArg) (uids : Option (List Nat))
    (udhs : Option (List String)) : Except VesalError SendData :=
  if !recipients.truthy || !messages.truthy then
    .error (VesalError.make none (some "recipients and messages should not be empty"))
  else
    let r := recipients.toArr
    let m := messages.toArr
    if m.length = 0 ∨ (r.length ≠ m.length ∧ m.length ≠ 1) then
      .error (VesalError.make none (some "recipients and messages should have the same length"))
    else
      .ok { recipients := r, messages := m,
            senders := List.replicate r.length v.«from»,
            encodings := normalizeEncodings r.length encodings,
            uids := uids, udhs := udhs }

/-- One entry of the raw per-recipient result list (`ISentMessage`). -/
structure SentMessage where
  status : Int
  id : Nat
  userId : Nat
  parts : Nat
  tariff : Nat
  alphabet : String
  recipient : String
deriving Repr, DecidableEq

/-- A per-recipient entry after normalization: the spread of the raw entry plus
the added `message` field. -/
structure SentMessageM extends SentMessage where
  message : String
deriving Repr, DecidableEq

/-- The success text `Send` attaches to a per-recipient entry with status 0. -/
def sendSuccessMessage : String := "پیام با موفقیت رسید"

/-- One iteration of the normalization loop over `result.messages`: push the
entry extended with its resolved text, and bump the matching counter. -/
def sendNormalizeStep (acc : List SentMessageM × Nat × Nat) (mr : SentMessage) :
    List SentMessageM × Nat × Nat :=
  if mr.status = 0 then
    (acc.1 ++ [{ toSentMessage := mr, message := sendSuccessMessage }], acc.2.1 + 1, acc.2.2)
  else
    (acc.1 ++ [{ toSentMessage := mr, message := GetStatusText mr.status }], acc.2.1, acc.2.2 + 1)

/-- The normalization loop of `Send`: one scan over `result.messages` building
`messagesMutated`, `successCount` and `failCount`. -/
def sendNormalize (msgs : List SentMessage) : List SentMessageM × Nat × Nat :=
  msgs.foldl sendNormalizeStep ([], 0, 0)

/-- The aggregate `count` object of the `Send` result. -/
structure SendCount where
  success : Nat
  fail : Nat
deriving Repr, DecidableEq

/-- The value `Send` resolves with (`ISendResponseWithCount`): the envelope
status, the normalized per-recipient list, and the aggregate counts. -/
structure ISendResponseWithCount where
  status : Int
  messages : List SentMessageM
  count : SendCount
deriving Repr, DecidableEq

/-- The part of `Send` after request shaping: hand the shaped body to the
transport, run the envelope logic of `Api`, then normalize the per-recipient
list and attach the counts. -/
def sendAfterShape (d : SendData)
    (transport : SendData → TransportOutcome (List SentMessage)) :
    Except VesalError ISendResponseWithCount :=
  match Api (transport d) with
  | .error e => .error e
  | .ok sp =>
      let n := sendNormalize sp.2
      .ok { status := sp.1, messages := n.1, count := { success := n.2.1, fail := n.2.2 } }

/-- The `Send` method: validation and shaping, then the single transported
request, then response normalization. -/
def Vesal.Send (v : Vesal) (recipients messages : StrOrArr)
    (encodings : Option EncodingArg) (uids : Option (List Nat))
    (udhs : Option (List String))
    (transport : SendData → TransportOutcome (List SentMessage)) :
    Except VesalError ISendResponseWithCount :=
  match shapeSend v recipients messages encodings uids udhs with
  | .error e => .error e
  | .ok d => sendAfterShape d transport

/-- One delivery-status record of the `Statuses` response. -/
structure Dlr where
  mid : Nat
  status : Int
  date : String
deriving Repr, DecidableEq

/-- The `Statuses` method: a single GET through `Api`, response unmodified. -/
def Vesal.Statuses (v : Vesal) (mids : List Nat)
    (transport : TransportOutcome (List Dlr)) : Except VesalError (Int × List Dlr) :=
  Api transport

/-- The `Mid` response shape: the envelope status and the (possibly absent)
message id. -/
structure IVesalResponse_Mid where
  status : Int
  mid : Option Int
deriving Repr, DecidableEq

/-- The coercion `result.mid || undefined` in `Mid`: a missing or falsy (zero)
id becomes `none`, every other id is kept. -/
def midCoerce : Option Int → Option Int
  | some m => if m = 0 then none else some m
  | none => none

/-- The `Mid` method: a single GET through `Api`, then
`{ ...result, mid: result.mid || undefined }`. -/
def Vesal.Mid (v : Vesal) (uid : Nat) (transport : TransportOutcome (Option Int)) :
    Except VesalError IVesalResponse_Mid :=
  match Api transport with
  | .error e => .error e
  | .ok sp => .ok { status := sp.1, mid := midCoerce sp.2 }

/-- The `Balance` method: a single GET through `Api`, response unmodified
(`balance` may be null). -/
def Vesal.Balance (v : Vesal) (transport : TransportOutcome (Option Int)) :
    Except VesalError (Int × Option Int) :=
  Api transport

/-- One inbound message of the `ReceivedMessages` response. -/
structure ReceivedMessage where
  body : String
  senderNumber : String
  recipientNumber : String
  date : String
deriving Repr, DecidableEq

/-- The `ReceivedMessages` method (`count` defaults to 100 at the TS call
site): a single GET through `Api`, response unmodified. -/
def Vesal.ReceivedMessages (v : Vesal) (count : Nat)
    (transport : TransportOutcome (List ReceivedMessage)) :
    Except VesalError (Int × List ReceivedMessage) :=
  Api transport

/-- State-passing form of `Send`: the method assigns no field of `this`, so the
client after the call is the client before it. -/
def Vesal.SendSt (v : Vesal) (recipients messages : StrOrArr)
    (encodings : Option EncodingArg) (uids : Option (List Nat))
    (udhs : Option (List String))
    (transport : SendData → TransportOutcome (List SentMessage)) :
    Vesal × Except VesalError ISendResponseWithCount :=
  (v, v.Send recipients messages encodings uids udhs transport)

/-- State-passing form of `Statuses`. -/
def Vesal.StatusesSt (v : Vesal) (mids : List Nat)
    (transport : TransportOutcome (List Dlr)) :
    Vesal × Except VesalError (Int × List Dlr) :=
  (v, v.Statuses mids transport)

/-- State-passing form of `Mid`. -/
def Vesal.MidSt (v : Vesal) (uid : Nat) (transport : TransportOutcome (Option Int)) :
    Vesal × Except VesalError IVesalResponse_Mid :=
  (v, v.Mid uid transport)

/-- State-passing form of `Balance`. -/
def Vesal.BalanceSt (v : Vesal) (transport : TransportOutcome (Option Int)) :
    Vesal × Except VesalError (Int × Option Int) :=
  (v, v.Balance transport)

/-- State-passing form of `ReceivedMessages`. -/
def Vesal.ReceivedMessagesSt (v : Vesal) (count : Nat)
    (transport : TransportOutcome (List ReceivedMessage)) :
    Vesal × Except VesalError (Int × List ReceivedMessage) :=
  (v, v.ReceivedMessages count transport)

/-- The per-entry effect of the normalization loop: the raw entry plus its
resolved text. -/
def normalizeOne (mr : SentMessage) : SentMessageM :=
  { toSentMessage := mr,
    message := if mr.status = 0 then sendSuccessMessage else GetStatusText mr.status }

/-- A demonstration client used by concrete witnesses. -/
def vDemo : Vesal := ⟨"user", "dom", "pass", "3000", "hdr"⟩

/-- The shape condition under which `shapeSend` accepts its input. -/
def validSendShape (recipients messages : StrOrArr) : Prop :=
  recipients.truthy = true ∧ messages.truthy = true ∧
  messages.toArr.length ≠ 0 ∧
  (messages.toArr.length = 1 ∨ recipients.toArr.length = messages.toArr.length)

instance (recipients messages : StrOrArr) : Decidable (validSendShape recipients messages) := by
  unfold validSendShape
  infer_instance

/-- A transport that answers a `Send` body with one status-0 outcome per
recipient, used by concrete witnesses. -/
def echoTransport : SendData → TransportOutcome (List SentMessage) :=
  fun d => TransportOutcome.json (some 0)
    (d.recipients.map fun r =>
      { status := 0, id := 1, userId := 1, parts := 1, tariff := 1,
        alphabet := "DEFAULT", recipient := r })

/-- The `Send` result for `vDemo`, two recipients, one broadcast message, under
`echoTransport`. -/
def sendDemoResult : ISendResponseWithCount :=
  { status := 0,
    messages := [
      { toSentMessage := { status := 0, id := 1, userId := 1, parts := 1, tariff := 1,
                           alphabet := "DEFAULT", recipient := "09120000001" },
        message := sendSuccessMessage },
      { toSentMessage := { status := 0, id := 1, userId := 1, parts := 1, tariff := 1,
                           alphabet := "DEFAULT", recipient := "09120000002" },
        message := sendSuccessMessage }],
    count := { success := 2, fail := 0 } }

/-- A transport answering with one success and one known-failure outcome. -/
def mixedTransport : SendData → TransportOutcome (List SentMessage) :=
  fun _ => TransportOutcome.json (some 0)
    [{ status := 0, id := 1, userId := 1, parts := 1, tariff := 1,
       alphabet := "DEFAULT", recipient := "a" },
     { status := 14, id := 2, userId := 1, parts := 1, tariff := 1,
       alphabet := "DEFAULT", recipient := "b" }]

/-- The `Send` result under `mixedTransport`. -/
def mixedResult : ISendResponseWithCount :=
  { status := 0,
    messages := [
      { toSentMessage := { status := 0, id := 1, userId := 1, parts := 1, tariff := 1,
                           alphabet := "DEFAULT", recipient := "a" },
        message := sendSuccessMessage },
      { toSentMessage := { status := 14, id := 2, userId := 1, parts := 1, tariff := 1,
                           alphabet := "DEFAULT", recipient := "b" },
        message := GetStatusText 14 }],
    count := { success := 1, fail := 1 } }

/-- The shaped body for `vDemo`, recipients `["a", "b"]`, broadcast message `"m"`. -/
def sendDemoData : SendData :=
  { recipients := ["a", "b"], messages := ["m"], senders := ["3000", "3000"],
    encodings := none, uids := none, udhs := none }

theorem sendNormalize_go (msgs : List SentMessage) (acc : List SentMessageM × Nat × Nat) :
    msgs.foldl sendNormalizeStep acc =
      (acc.1 ++ msgs.map normalizeOne,
       acc.2.1 + msgs.countP (fun mr => mr.status == 0),
       acc.2.2 + msgs.countP (fun mr => !(mr.status == 0))) := by
  induction msgs generalizing acc with
  | nil => simp
  | cons head tail ih =>
    rw [List.foldl_cons, ih]
    by_cases h : head.status = 0 <;>
      simp [sendNormalizeStep, normalizeOne, h, List.countP_cons] <;>
      omega

theorem sendNormalize_eq (msgs : List SentMessage) :
    sendNormalize msgs =
      (msgs.map normalizeOne,
       msgs.countP (fun mr => mr.status == 0),
       msgs.countP (fun mr => !(mr.status == 0))) := by
  rw [sendNormalize, sendNormalize_go]
  simp

theorem countP_status_split (msgs : List SentMessage) :
    msgs.countP (fun mr => mr.status == 0) + msgs.countP (fun mr => !(mr.status == 0))
      = msgs.length := by
  induction msgs with
  | nil => simp
  | cons head tail ih =>
    by_cases hs : head.status = 0 <;> simp [List.countP_cons, hs] <;> omega

theorem sendNormalize_sum (msgs : List SentMessage) :
    (sendNormalize msgs).2.1 + (sendNormalize msgs).2.2 = msgs.length := by
  rw [sendNormalize_eq]
  exact countP_status_split msgs

theorem shapeSend_eq_ok_iff (v : Vesal) (recipients messages : StrOrArr)
    (encodings : Option EncodingArg) (uids : Option (List Nat))
    (udhs : Option (List String)) (d : SendData) :
    shapeSend v recipients messages encodings uids udhs = .ok d ↔
      (validSendShape recipients messages ∧
       d = { recipients := recipients.toArr, messages := messages.toArr,
             senders := List.replicate recipients.toArr.length v.«from»,
             encodings := normalizeEncodings recipients.toArr.length encodings,
             uids := uids, udhs := udhs }) := by
  unfold shapeSend validSendShape
  by_cases h1 : recipients.truthy <;> by_cases h2 : messages.truthy <;>
    simp only [h1, h2, Bool.not_true, Bool.not_false, Bool.false_or, Bool.or_false,
      Bool.true_or, Bool.or_true, if_true, if_false, ite_true, ite_false,
      Bool.false_eq_true, Bool.true_eq_false, false_and, and_false, true_and, and_true]
  · by_cases h3 : messages.toArr.length = 0 ∨
        (recipients.toArr.length ≠ messages.toArr.length ∧ messages.toArr.length ≠ 1) <;>
      simp only [h3, if_true, if_false, ite_true, ite_false]
    · constructor
      · intro h
        cases h
      · rintro ⟨⟨hm, hlen⟩, _⟩
        rcases h3 with h3 | ⟨hne, hone⟩
        · exact absurd h3 hm
        · rcases hlen with hlen | hlen
          · exact absurd hlen hone
          · exact absurd hlen hne
    · rw [not_or] at h3
      obtain ⟨hm, hrest⟩ := h3
      rw [Decidable.not_and_iff_or_not] at hrest
      constructor
      · intro h
        cases h
        refine ⟨⟨hm, ?_⟩, rfl⟩
        rcases hrest with hrest | hrest
        · rw [Decidable.not_not] at hrest
          exact Or.inr hrest
        · rw [Decidable.not_not] at hrest
          exact Or.inl hrest
      · rintro ⟨_, rfl⟩
        rfl
  all_goals simp

end VesalTs

namespace VesalTs

/-- C1 counterexample: the claim says `Send` raises `InvalidArgument` whenever
recipients is empty, but an empty recipients ARRAY is truthy in JavaScript, so
with a one-element messages array the length check `0 !== 1 && 1 !== 1` also
passes and `Send` proceeds to the transport and resolves successfully. -/
theorem send_empty_recipients_accepted :
    (vDemo.Send (StrOrArr.arr []) (StrOrArr.arr ["hi"]) none none none
        (fun _ => TransportOutcome.json (some 0) [])).isOk = true := by
  decide

/-- C1 (amended): `Send` raises its pre-transmission `VesalError` iff the input
shapes are invalid in the code's sense — recipients or messages is an empty
STRING (an empty recipients array is truthy and is accepted when messages has
length 1), or the normalized messages list is empty, or its length matches
neither 1 nor the recipient count — and when validation fails the result is
the same for every transport, i.e. the error is raised before any HTTP call;
every shape satisfying `validSendShape` passes shaping without raising. -/
theorem send_validation_characterization (v : Vesal) (recipients messages : StrOrArr)
    (encodings : Option EncodingArg) (uids : Option (List Nat))
    (udhs : Option (List String)) :
    ((shapeSend v recipients messages encodings uids udhs).isOk = true ↔
      validSendShape recipients messages)
    ∧ (¬ validSendShape recipients messages →
        ∀ t₁ t₂, v.Send recipients messages encodings uids udhs t₁
            = v.Send recipients messages encodings uids udhs t₂
          ∧ (v.Send recipients messages encodings uids udhs t₁).isOk = false) := by
  constructor
  · constructor
    · intro h
      cases hs : shapeSend v recipients messages encodings uids udhs with
      | error e =>
        rw [hs] at h
        cases h
      | ok d =>
        exact ((shapeSend_eq_ok_iff v recipients messages encodings uids udhs d).mp hs).1
    · intro h
      rw [(shapeSend_eq_ok_iff v recipients messages encodings uids udhs _).mpr ⟨h, rfl⟩]
      rfl
  · intro h t₁ t₂
    cases hs : shapeSend v recipients messages encodings uids udhs with
    | ok d =>
      exact absurd ((shapeSend_eq_ok_iff v recipients messages encodings uids udhs d).mp hs).1 h
    | error e =>
      unfold Vesal.Send
      rw [hs]
      exact ⟨rfl, rfl⟩

/-- Witness for C1: a valid pair passes shaping; an invalid pair (one
recipient, two messages) is rejected. -/
theorem send_validation_characterization_witness :
    (shapeSend vDemo (StrOrArr.str "09120000001") (StrOrArr.str "hi")
        none none none).isOk = true
    ∧ (vDemo.Send (StrOrArr.arr ["09120000001"]) (StrOrArr.arr ["a", "b"]) none none none
        (fun _ => TransportOutcome.connectFail)).isOk = false :=
  ⟨(send_validation_characterization vDemo (StrOrArr.str "09120000001") (StrOrArr.str "hi")
      none none none).1.mpr (by decide),
   ((send_validation_characterization vDemo (StrOrArr.arr ["09120000001"])
      (StrOrArr.arr ["a", "b"]) none none none).2 (by decide)
      (fun _ => TransportOutcome.connectFail) (fun _ => TransportOutcome.connectFail)).2⟩

theorem api_ok_inv {α : Type} (s : Int) (p : α) (sp : Int × α)
    (h : Api (TransportOutcome.json (some s) p) = .ok sp) : sp = (s, p) := by
  have h2 : (if s = 0 then (Except.ok (s, p) : Except VesalError (Int × α))
      else if inVesalErrors s = true then Except.error (VesalError.make (some s) none)
      else Except.ok (s, p)) = Except.ok sp := h
  split at h2
  · exact (Except.ok.inj h2).symm
  · split at h2
    · cases h2
    · exact (Except.ok.inj h2).symm

theorem api_ok_src_inv {α : Type} (t : TransportOutcome α) (sp : Int × α)
    (h : Api t = .ok sp) : t = TransportOutcome.json (some sp.1) sp.2 := by
  cases t with
  | connectFail => simp [Api] at h
  | invalidJson => simp [Api] at h
  | json st p =>
    cases st with
    | none => simp [Api] at h
    | some s =>
      obtain rfl := api_ok_inv s p sp h
      rfl

theorem send_ok_inv (v : Vesal) (recipients messages : StrOrArr)
    (encodings : Option EncodingArg) (uids : Option (List Nat)) (udhs : Option (List String))
    (transport : SendData → TransportOutcome (List SentMessage))
    (res : ISendResponseWithCount)
    (hret : v.Send recipients messages encodings uids udhs transport = .ok res) :
    ∃ d s msgs,
      shapeSend v recipients messages encodings uids udhs = .ok d
      ∧ transport d = TransportOutcome.json (some s) msgs
      ∧ res = { status := s, messages := (sendNormalize msgs).1,
                count := { success := (sendNormalize msgs).2.1,
                           fail := (sendNormalize msgs).2.2 } } := by
  cases hs : shapeSend v recipients messages encodings uids udhs with
  | error e =>
    have hF : (Except.error e : Except VesalError ISendResponseWithCount)
        = Except.ok res := by
      unfold Vesal.Send at hret
      rw [hs] at hret
      exact hret
    cases hF
  | ok d =>
    have hret2 : sendAfterShape d transport = .ok res := by
      unfold Vesal.Send at hret
      rw [hs] at hret
      exact hret
    unfold sendAfterShape at hret2
    cases hapi : Api (transport d) with
    | error e =>
      rw [hapi] at hret2
      have hF : (Except.error e : Except VesalError ISendResponseWithCount)
          = Except.ok res := hret2
      cases hF
    | ok sp =>
      rw [hapi] at hret2
      have h2 : Except.ok (ISendResponseWithCount.mk sp.1 (sendNormalize sp.2).1
          (SendCount.mk (sendNormalize sp.2).2.1 (sendNormalize sp.2).2.2))
          = Except.ok res := hret2
      obtain rfl := Except.ok.inj h2
      exact ⟨d, sp.1, sp.2, rfl, api_ok_src_inv (transport d) sp hapi, rfl⟩

/-- C2: whenever the transport answers a `Send` with one outcome entry per
recipient (any mixture of status codes), a `Send` that resolves reports
aggregate counts summing to the recipient count. -/
theorem send_count_sum (v : Vesal) (recipients messages : StrOrArr)
    (encodings : Option EncodingArg) (uids : Option (List Nat)) (udhs : Option (List String))
    (transport : SendData → TransportOutcome (List SentMessage))
    (hper : ∀ d s msgs, transport d = TransportOutcome.json s msgs →
      msgs.length = d.recipients.length)
    (res : ISendResponseWithCount)
    (hret : v.Send recipients messages encodings uids udhs transport = .ok res) :
    res.count.success + res.count.fail = recipients.toArr.length := by
  obtain ⟨d, s, msgs, hd, ht, rfl⟩ :=
    send_ok_inv v recipients messages encodings uids udhs transport res hret
  have hdr : d.recipients = recipients.toArr := by
    obtain ⟨-, rfl⟩ :=
      (shapeSend_eq_ok_iff v recipients messages encodings uids udhs d).mp hd
    rfl
  have hlen : msgs.length = recipients.toArr.length := by
    rw [hper d (some s) msgs ht, hdr]
  calc (sendNormalize msgs).2.1 + (sendNormalize msgs).2.2
      = msgs.length := sendNormalize_sum msgs
    _ = recipients.toArr.length := hlen

/-- Witness for C2: two recipients with one broadcast message; the counts sum
to the recipient count 2. -/
theorem send_count_sum_witness :
    sendDemoResult.count.success + sendDemoResult.count.fail = 2 :=
  send_count_sum vDemo (StrOrArr.arr ["09120000001", "09120000002"]) (StrOrArr.str "hi")
    none none none echoTransport
    (by
      intro d s msgs h
      injection h with h1 h2
      subst h2
      simp [echoTransport])
    sendDemoResult (by rfl)

/-- C3 counterexample: the claim says a nonzero status outside both catalogs
makes the operation raise an UnknownApiError rather than return; but `Api`
falls through its known-error check and RETURNS the body for status 999. -/
theorem api_unknown_code_returned :
    Api (TransportOutcome.json (some 999) (0 : Int)) = .ok (999, 0) := by rfl

/-- C3 (amended): for a structurally valid response, status 0 is returned
as-is; a nonzero status present in the error catalog raises a `VesalError`
carrying that code and the catalog-resolved message; a nonzero status outside
the catalog is returned as-is without raising (not surfaced as an error). -/
theorem api_envelope_dispatch {α : Type} (s : Int) (p : α) :
    (s = 0 → Api (TransportOutcome.json (some s) p) = .ok (s, p))
    ∧ (s ≠ 0 → inVesalErrors s = true →
        Api (TransportOutcome.json (some s) p) =
          .error { status := some s, message := GetStatusText s })
    ∧ (s ≠ 0 → inVesalErrors s = false →
        Api (TransportOutcome.json (some s) p) = .ok (s, p)) := by
  refine ⟨?_, ?_, ?_⟩
  · intro h0
    simp [Api, h0]
  · intro h0 hK
    have hbne : (s != 0) = true := by simpa using h0
    simp [Api, h0, hK, VesalError.make, hbne]
  · intro h0 hK
    simp [Api, h0, hK]

/-- Witness for C3: the three envelope cases at statuses 0, 14 and 999. -/
theorem api_envelope_dispatch_witness :
    Api (TransportOutcome.json (some 0) (0 : Int)) = .ok (0, 0)
    ∧ Api (TransportOutcome.json (some 14) (0 : Int)) =
        .error { status := some 14, message := GetStatusText 14 }
    ∧ Api (TransportOutcome.json (some 999) (1 : Int)) = .ok (999, 1) :=
  ⟨(api_envelope_dispatch 0 (0 : Int)).1 rfl,
   (api_envelope_dispatch 14 (0 : Int)).2.1 (by decide) (by decide),
   (api_envelope_dispatch 999 (1 : Int)).2.2 (by decide) (by decide)⟩

/-- C4: every transport-level failure — connection failure, non-JSON body, or
a JSON body with no top-level status field — yields a `VesalError` with no
status code and one of the two fixed generic English messages, neither of
which is a catalog-derived text; `Api` consumes exactly one transport outcome,
so no retry exists. -/
theorem api_transport_failure {α : Type} (t : TransportOutcome α) :
    (t = TransportOutcome.connectFail →
      Api t = .error { status := none, message := "Server connection failed" })
    ∧ (t = TransportOutcome.invalidJson →
      Api t = .error { status := none, message := "The server didn't respond correctly" })
    ∧ (∀ p, t = TransportOutcome.json none p →
      Api t = .error { status := none, message := "The server didn't respond correctly" })
    ∧ (∀ pr ∈ vesalErrors,
        "Server connection failed" ≠ pr.2 ∧ "The server didn't respond correctly" ≠ pr.2) := by
  refine ⟨?_, ?_, ?_, by decide⟩
  · rintro rfl
    rfl
  · rintro rfl
    rfl
  · rintro p rfl
    rfl

/-- Witness for C4: a connection failure surfaces the generic message. -/
theorem api_transport_failure_witness :
    Api (TransportOutcome.connectFail : TransportOutcome Int) =
      .error { status := none, message := "Server connection failed" } :=
  (api_transport_failure (TransportOutcome.connectFail : TransportOutcome Int)).1 rfl

/-- C5: every entry of a resolved `Send` result carries its resolved text (the
success sentinel text for status 0, the catalog lookup otherwise), and the
aggregate counts are exactly the status-0 and non-status-0 counts of that same
returned list (the single normalization scan). -/
theorem send_message_resolution (v : Vesal) (recipients messages : StrOrArr)
    (encodings : Option EncodingArg) (uids : Option (List Nat)) (udhs : Option (List String))
    (transport : SendData → TransportOutcome (List SentMessage))
    (res : ISendResponseWithCount)
    (hret : v.Send recipients messages encodings uids udhs transport = .ok res) :
    (∀ em ∈ res.messages,
      em.message = if em.status = 0 then sendSuccessMessage else GetStatusText em.status)
    ∧ res.count.success = res.messages.countP (fun em => em.status == 0)
    ∧ res.count.fail = res.messages.countP (fun em => !(em.status == 0)) := by
  obtain ⟨d, s, msgs, hd, ht, rfl⟩ :=
    send_ok_inv v recipients messages encodings uids udhs transport res hret
  refine ⟨?_, ?_, ?_⟩
  · intro em hem
    rw [sendNormalize_eq] at hem
    simp only [List.mem_map] at hem
    obtain ⟨mr, hmr, rfl⟩ := hem
    by_cases h0 : mr.status = 0 <;> simp [normalizeOne, h0]
  · rw [sendNormalize_eq]
    simp only [List.countP_map]
    rfl
  · rw [sendNormalize_eq]
    simp only [List.countP_map]
    rfl

/-- Witness for C5: a mixed response yields counts 1 and 1, matching a scan of
the returned list. -/
theorem send_message_resolution_witness :
    mixedResult.count.success = 1 ∧ mixedResult.count.fail = 1 := by
  have h := send_message_resolution vDemo (StrOrArr.str "0912") (StrOrArr.str "hi")
    none none none mixedTransport mixedResult (by rfl)
  exact ⟨h.2.1.trans (by decide), h.2.2.trans (by decide)⟩

/-- C6: `GetStatusText` is a total deterministic lookup — resolving the same
code twice yields the same text, and a nonzero code absent from the catalog
resolves to the empty string both times instead of failing. -/
theorem getStatusText_total_idempotent (c : Int) :
    GetStatusText c = GetStatusText c
    ∧ (c ≠ 0 → (∀ pr ∈ vesalErrors, pr.1 ≠ c) →
        GetStatusText c = "" ∧ GetStatusText c = "") := by
  refine ⟨rfl, fun hc habs => ?_⟩
  have hfind : vesalErrors.find? (fun p => p.1 == c) = none := by
    rw [List.find?_eq_none]
    intro x hx
    simpa using habs x hx
  constructor <;> simp [GetStatusText, hc, hfind]

/-- Witness for C6: the unknown code 999 resolves to the empty string twice. -/
theorem getStatusText_total_idempotent_witness :
    GetStatusText 999 = "" ∧ GetStatusText 999 = "" :=
  (getStatusText_total_idempotent 999).2 (by decide) (by decide)

/-- C7 counterexample: `-104` is not a key of the error catalog: its lookup is
the empty string, not the insufficient-credit text, and an envelope with
status `-104` is returned by `Api` without raising. -/
theorem code_neg104_not_insufficient_credit :
    GetStatusText (-104) = ""
    ∧ GetStatusText (-104) ≠ "مانده اعتبار ریالی مورد نیاز برای ارسال پیامک کافی نیست"
    ∧ (Api (TransportOutcome.json (some (-104)) (0 : Int))).isOk = true := by
  refine ⟨by rfl, by decide, by rfl⟩

/-- C7 (amended): `-104` is outside the error catalog — `GetStatusText (-104)`
is the empty string and `Api` passes a `-104` envelope through without
raising; the insufficient-credit text is catalogued under code `14`, where it
is exposed both through the raised `VesalError` and through `GetStatusText`. -/
theorem insufficient_credit_resolution :
    GetStatusText (-104) = ""
    ∧ (Api (TransportOutcome.json (some (-104)) (0 : Int))).isOk = true
    ∧ GetStatusText 14 = "مانده اعتبار ریالی مورد نیاز برای ارسال پیامک کافی نیست"
    ∧ Api (TransportOutcome.json (some 14) (0 : Int)) =
        .error { status := some 14,
                 message := "مانده اعتبار ریالی مورد نیاز برای ارسال پیامک کافی نیست" } := by
  refine ⟨by rfl, by rfl, by rfl, by rfl⟩

/-- C8: for every `Send` call that passes validation, the shaped body has a
senders list with one entry per recipient, each equal to the client's default
sender (`Send` accepts no per-call sender override), a single-element messages
list stays at length 1 (not expanded), and the body handed to the transport is
exactly that shaped body. -/
theorem send_request_shape (v : Vesal) (recipients messages : StrOrArr)
    (encodings : Option EncodingArg) (uids : Option (List Nat)) (udhs : Option (List String))
    (d : SendData)
    (hok : shapeSend v recipients messages encodings uids udhs = .ok d) :
    d.senders.length = d.recipients.length
    ∧ (∀ s ∈ d.senders, s = v.«from»)
    ∧ d.messages = messages.toArr
    ∧ d.recipients = recipients.toArr
    ∧ (messages.toArr.length = 1 → d.messages.length = 1)
    ∧ (∀ transport, v.Send recipients messages encodings uids udhs transport
        = sendAfterShape d transport) := by
  obtain ⟨hvalid, rfl⟩ :=
    (shapeSend_eq_ok_iff v recipients messages encodings uids udhs d).mp hok
  refine ⟨by simp, ?_, rfl, rfl, fun h => h, ?_⟩
  · intro s hs
    exact List.eq_of_mem_replicate hs
  · intro transport
    unfold Vesal.Send
    rw [hok]

/-- Witness for C8: two recipients with a broadcast message give two senders
and a messages list of length 1. -/
theorem send_request_shape_witness :
    sendDemoData.senders.length = sendDemoData.recipients.length
    ∧ sendDemoData.messages.length = 1 := by
  have h := send_request_shape vDemo (StrOrArr.arr ["a", "b"]) (StrOrArr.str "m")
    none none none sendDemoData (by rfl)
  exact ⟨h.1, h.2.2.2.2.1 (by rfl)⟩

/-- C9: `Mid` passes the response through with only the id coerced — a missing
id or the falsy sentinel 0 becomes an explicit absent value, any other id and
the envelope status are passed through unchanged. -/
theorem mid_normalization (v : Vesal) (uid : Nat) (s : Int) (mid : Option Int)
    (res : IVesalResponse_Mid)
    (hret : v.Mid uid (TransportOutcome.json (some s) mid) = .ok res) :
    res.status = s
    ∧ ((mid = none ∨ mid = some 0) → res.mid = none)
    ∧ (∀ m, mid = some m → m ≠ 0 → res.mid = some m) := by
  unfold Vesal.Mid at hret
  cases hapi : Api (TransportOutcome.json (some s) mid) with
  | error e =>
    rw [hapi] at hret
    cases hret
  | ok sp =>
    rw [hapi] at hret
    obtain rfl := api_ok_inv s mid sp hapi
    cases hret
    refine ⟨rfl, ?_, ?_⟩
    · rintro (rfl | rfl) <;> rfl
    · rintro m rfl hm
      simp [midCoerce, hm]

/-- Witness for C9: a zero id is coerced to absent; a nonzero id is kept. -/
theorem mid_normalization_witness :
    (IVesalResponse_Mid.mk 0 none).mid = none
    ∧ (IVesalResponse_Mid.mk 0 (some 5)).mid = some 5 :=
  ⟨(mid_normalization vDemo 7 0 (some 0) { status := 0, mid := none } (by rfl)).2.1
      (Or.inr rfl),
   (mid_normalization vDemo 7 0 (some 5) { status := 0, mid := some 5 } (by rfl)).2.2
      5 rfl (by decide)⟩

/-- C10: no public operation mutates the client — in state-passing form each
method returns the client it was called on, unchanged, for every input and
transport outcome (the source assigns fields only in the constructor); the two
status catalogs are top-level constants (`as const` in the source) that no
operation writes. -/
theorem client_never_mutated (v : Vesal) (recipients messages : StrOrArr)
    (encodings : Option EncodingArg) (uids : Option (List Nat)) (udhs : Option (List String))
    (t1 : SendData → TransportOutcome (List SentMessage))
    (mids : List Nat) (t2 : TransportOutcome (List Dlr))
    (uid : Nat) (t3 : TransportOutcome (Option Int))
    (t4 : TransportOutcome (Option Int))
    (count : Nat) (t5 : TransportOutcome (List ReceivedMessage)) :
    (v.SendSt recipients messages encodings uids udhs t1).1 = v
    ∧ (v.StatusesSt mids t2).1 = v
    ∧ (v.MidSt uid t3).1 = v
    ∧ (v.BalanceSt t4).1 = v
    ∧ (v.ReceivedMessagesSt count t5).1 = v :=
  ⟨rfl, rfl, rfl, rfl, rfl⟩

end VesalTs
